import Mathlib

/-!
Verification of the LINE webhook AI bot (src/index.js) against its
natural-language specification.

The development shallowly embeds the observable behaviour of the single
source file:

* the JSON round-trip performed by the signature check
  (`express.json` parse followed by `JSON.stringify(req.body)`, lines 85-94);
* the calorie extraction `parseInt(text.match(/\d+/)?.[0] || "0")` (line 186);
* the chart renderer `createLineGraph` (lines 45-79), with JavaScript
  IEEE-754 special values (`NaN`, `Infinity`) represented symbolically;
* the webhook event loop (lines 82-205) as a state-transition function.

External effects (OpenAI completions, the LINE content download, the LINE
reply POST, `Date.now()`) are supplied by a per-event oracle; every
observable action (record read/write, AI request, dispatch) is logged in
the state so that ordering and counting claims can be stated.
-/

/-! ## JSON model (platform `JSON.parse` / `JSON.stringify`)

`express.json()` parses the raw request body into `req.body`; the handler
then recomputes the body text as `JSON.stringify(req.body)` (line 86).
The model below covers the JSON fragment exercised by webhook payloads:
objects, arrays, strings with the standard one-character escapes,
integers, booleans, `null`, and insignificant whitespace. -/

inductive Json where
  | null
  | bool (b : Bool)
  | num (n : Int)
  | str (s : String)
  | arr (items : List Json)
  | obj (fields : List (String × Json))

/-- JSON string escaping as performed by `JSON.stringify` (quote,
backslash and the common control characters). -/
def escapeJsonChar (c : Char) : String :=
  if c = '"' then "\\\""
  else if c = '\\' then "\\\\"
  else if c = '\n' then "\\n"
  else if c = '\t' then "\\t"
  else if c = '\r' then "\\r"
  else String.mk [c]

def escapeJsonChars (l : List Char) : String :=
  (l.map escapeJsonChar).foldl (· ++ ·) ""

mutual

/-- Serialisation of a parsed body, as `JSON.stringify` produces it:
no whitespace, object fields in insertion order. -/
def stringifyJson : Json → String
  | .null => "null"
  | .bool true => "true"
  | .bool false => "false"
  | .num n => toString n
  | .str s => "\"" ++ escapeJsonChars s.data ++ "\""
  | .arr l => "[" ++ stringifyArrItems l ++ "]"
  | .obj l => "\x7b" ++ stringifyObjFields l ++ "\x7d"

def stringifyArrItems : List Json → String
  | [] => ""
  | [j] => stringifyJson j
  | j :: rest => stringifyJson j ++ "," ++ stringifyArrItems rest

def stringifyObjFields : List (String × Json) → String
  | [] => ""
  | [(k, v)] => "\"" ++ escapeJsonChars k.data ++ "\":" ++ stringifyJson v
  | (k, v) :: rest =>
      "\"" ++ escapeJsonChars k.data ++ "\":" ++ stringifyJson v ++ "," ++ stringifyObjFields rest

end

/-- Insignificant JSON whitespace. -/
def skipWs : List Char → List Char
  | [] => []
  | c :: cs => if c = ' ' ∨ c = '\t' ∨ c = '\n' ∨ c = '\r' then skipWs cs else c :: cs

/-- Unescape one character following a backslash inside a JSON string
literal (the `\uXXXX` form is outside the modelled fragment). -/
def unescapeJsonChar (e : Char) : Option Char :=
  if e = '"' then some '"'
  else if e = '\\' then some '\\'
  else if e = '/' then some '/'
  else if e = 'n' then some '\n'
  else if e = 't' then some '\t'
  else if e = 'r' then some '\r'
  else none

/-- Parse the body of a JSON string literal (after the opening quote),
returning the decoded characters and the input after the closing quote. -/
def parseStrChars : List Char → Option (List Char × List Char)
  | [] => none
  | c :: cs =>
    if c = '"' then some ([], cs)
    else if c = '\\' then
      match cs with
      | [] => none
      | e :: cs2 =>
        match unescapeJsonChar e with
        | none => none
        | some d =>
          match parseStrChars cs2 with
          | none => none
          | some (acc, rest) => some (d :: acc, rest)
    else
      match parseStrChars cs with
      | none => none
      | some (acc, rest) => some (c :: acc, rest)

/-- Split a leading run of decimal digits off the input. -/
def parseDigits : List Char → List Char × List Char
  | [] => ([], [])
  | c :: cs =>
    if c.isDigit then
      let (d, r) := parseDigits cs
      (c :: d, r)
    else ([], c :: cs)

/-- Numeric value of a digit run, most significant digit first. -/
def digitsToNat (l : List Char) : Nat :=
  l.foldl (fun acc c => acc * 10 + (c.toNat - 48)) 0

mutual

/-- Fuel-indexed JSON value parser (the fuel strictly exceeds the input
length, so it is never exhausted on inputs the parser accepts). -/
def parseVal : Nat → List Char → Option (Json × List Char)
  | 0, _ => none
  | Nat.succ fuel, input =>
    match skipWs input with
    | [] => none
    | c :: cs =>
      if c = '\x7b' then
        match skipWs cs with
        | [] => none
        | d :: ds =>
          if d = '\x7d' then some (.obj [], ds)
          else
            match parseObjTail fuel (d :: ds) with
            | none => none
            | some (fields, rest) => some (.obj fields, rest)
      else if c = '[' then
        match skipWs cs with
        | [] => none
        | d :: ds =>
          if d = ']' then some (.arr [], ds)
          else
            match parseArrTail fuel (d :: ds) with
            | none => none
            | some (items, rest) => some (.arr items, rest)
      else if c = '"' then
        match parseStrChars cs with
        | none => none
        | some (chars, rest) => some (.str (String.mk chars), rest)
      else if c = '-' then
        match parseDigits cs with
        | ([], _) => none
        | (ds, rest) => some (.num (-(digitsToNat ds : Int)), rest)
      else if c.isDigit then
        match parseDigits (c :: cs) with
        | (ds, rest) => some (.num (digitsToNat ds), rest)
      else if (c :: cs).take 4 = [ 'n', 'u', 'l', 'l' ] then some (.null, (c :: cs).drop 4)
      else if (c :: cs).take 4 = [ 't', 'r', 'u', 'e' ] then some (.bool true, (c :: cs).drop 4)
      else if (c :: cs).take 5 = [ 'f', 'a', 'l', 's', 'e' ] then some (.bool false, (c :: cs).drop 5)
      else none

/-- Parse the items of a non-empty JSON array, up to and including the
closing bracket. -/
def parseArrTail : Nat → List Char → Option (List Json × List Char)
  | 0, _ => none
  | Nat.succ fuel, input =>
    match parseVal fuel input with
    | none => none
    | some (v, rest) =>
      match skipWs rest with
      | [] => none
      | c :: cs =>
        if c = ',' then
          match parseArrTail fuel cs with
          | none => none
          | some (items, rest2) => some (v :: items, rest2)
        else if c = ']' then some ([v], cs)
        else none

/-- Parse the fields of a non-empty JSON object, up to and including the
closing brace. -/
def parseObjTail : Nat → List Char → Option (List (String × Json) × List Char)
  | 0, _ => none
  | Nat.succ fuel, input =>
    match skipWs input with
    | [] => none
    | c :: cs =>
      if c = '"' then
        match parseStrChars cs with
        | none => none
        | some (key, rest) =>
          match skipWs rest with
          | [] => none
          | d :: ds =>
            if d = ':' then
              match parseVal fuel ds with
              | none => none
              | some (v, rest2) =>
                match skipWs rest2 with
                | [] => none
                | e :: es =>
                  if e = ',' then
                    match parseObjTail fuel es with
                    | none => none
                    | some (fields, rest3) => some ((String.mk key, v) :: fields, rest3)
                  else if e = '\x7d' then some ([(String.mk key, v)], es)
                  else none
            else none
      else none

end

/-- Top-level JSON parse of a request body, modelling `express.json()`:
the whole input must be consumed (apart from trailing whitespace). -/
def parseJson (s : String) : Option Json :=
  match parseVal (2 * s.length + 2) s.data with
  | none => none
  | some (j, rest) =>
    match skipWs rest with
    | [] => some j
    | _ :: _ => none

/-- The byte string actually fed to the HMAC in the signature check:
`JSON.stringify(req.body)` (src/index.js line 86), i.e. the re-serialised
parse of the raw body, not the raw body itself.  `none` when the body is
not valid JSON (express then rejects the request before the handler). -/
def digestInput (raw : String) : Option String :=
  (parseJson raw).map stringifyJson

/-- The signature check of src/index.js lines 85-94: recompute
base64(HMAC-SHA256(secret, JSON.stringify(req.body))) and compare for
exact equality with the claimed signature header.  The keyed HMAC-base64
primitive (an external library call) is abstracted as `hmacB64`. -/
def verifyWebhookSignature (hmacB64 : String → String) (raw : String) (sig : String) :
    Option Bool :=
  (digestInput raw).map (fun body => hmacB64 body == sig)

/-! ## Calorie extraction (src/index.js line 186)

`parseInt(completion.choices[0].message.content.match(/\d+/)?.[0] || "0")`:
the first maximal run of decimal digits in the response text, or `0` when
the text contains no digit. -/

/-- First maximal run of decimal digits in the character list, as matched
by the regular expression used at line 186 (a digit run). -/
def firstDigitRun : List Char → Option (List Char)
  | [] => none
  | c :: cs =>
    if c.isDigit then some (c :: cs.takeWhile Char.isDigit)
    else firstDigitRun cs

/-- The calorie estimate extracted from the AI response text
(src/index.js line 186): `parseInt` of the first digit run, `0` when the
regular expression does not match. -/
def extractCalories (s : String) : Nat :=
  digitsToNat ((firstDigitRun s.data).getD [])

/-! ## Chart renderer (src/index.js lines 45-79, `createLineGraph`)

Coordinates are computed with JavaScript number semantics; the special
values that arise when `Math.max(...data) = 0` are represented
symbolically by `JsNum`. Finite values are exact rationals. -/

/-- A JavaScript number as produced by the renderer's y-coordinate
arithmetic: a finite value, `NaN`, or a signed infinity. -/
inductive JsNum where
  | num (q : ℚ)
  | nan
  | posInf
  | negInf
deriving DecidableEq, Repr

/-- Vertical coordinate of one data point (src/index.js line 67):
the JavaScript evaluation of `250 - (v / mx) * 200` where
`mx = Math.max(...data)`.  When `mx = 0` the division is still performed
(there is no special case in the source); JavaScript then yields
`0/0 = NaN` (so the whole expression is `NaN`) or, for `v < 0`,
`v/0 = -Infinity`, `-Infinity * 200 = -Infinity`,
`250 - -Infinity = +Infinity` (and symmetrically `-Infinity` for
`v > 0`, which cannot occur when `mx = 0`). -/
def graphY (v mx : ℚ) : JsNum :=
  if mx = 0 then
    if v = 0 then JsNum.nan
    else if v > 0 then JsNum.negInf
    else JsNum.posInf
  else JsNum.num (250 - v / mx * 200)

/-- Horizontal step (src/index.js line 64): `340 / (data.length - 1 || 1)`.
For one point `0 || 1 = 1`; for the empty series `-1 || 1 = -1` (the
loop body then never runs). -/
def graphStepX (n : Nat) : ℚ :=
  if (n : Int) - 1 = 0 then 340 else 340 / (((n : Int) - 1 : Int) : ℚ)

/-- Maximum of the series, `Math.max(...data)` over a non-empty list. -/
def seriesMax (x : ℚ) (xs : List ℚ) : ℚ :=
  xs.foldl max x

/-- The polyline vertices drawn by `createLineGraph`
(src/index.js lines 64-70): x-coordinates are always finite,
y-coordinates follow `graphY`. -/
def graphPoints (data : List ℚ) : List (ℚ × JsNum) :=
  match data with
  | [] => []
  | x :: xs =>
    let mx := seriesMax x xs
    let sx := graphStepX (x :: xs).length
    (x :: xs).enum.map (fun p => (50 + sx * (p.1 : ℚ), graphY p.2 mx))

/-- Observable content of the image produced by `createLineGraph`
(src/index.js lines 45-79): the plotted vertices and the label text.
The function is total: every series yields an image. -/
structure Graph where
  points : List (ℚ × JsNum)
  label : String
deriving DecidableEq, Repr

def createLineGraph (data : List ℚ) (label : String) : Graph :=
  { points := graphPoints data, label := label }

/-! ## Webhook event loop (src/index.js lines 82-205)

One `POST /webhook` request that passed the signature check is a list of
events processed sequentially by a single `for` loop inside one
`try/catch`.  Any exception thrown while processing an event is caught
only by that outer catch (line 202), which logs and returns: the loop is
abandoned, the remaining events are not processed, the process survives.
External calls are resolved by a per-event oracle. -/

/-- `event.message`: the LINE message object.  `mid` is `event.message.id`
(`none` models a missing / `undefined` id), `mtype` is
`event.message.type`, `text` is `event.message.text`. -/
structure Msg where
  mid : Option String
  mtype : String
  text : String
deriving DecidableEq, Repr

/-- One inbound webhook event.  `message` is `none` when the event has no
`message` field. -/
structure Event where
  etype : String
  message : Option Msg
  userId : String
  replyToken : String
deriving DecidableEq, Repr

/-- `event.message?.id` (src/index.js line 104): `undefined` (modelled as
`none`) when either the message or its id is absent. -/
def eventMid (ev : Event) : Option String :=
  ev.message.bind Msg.mid

/-- One chat message of an OpenAI request. -/
structure ChatMsg where
  role : String
  content : String
deriving DecidableEq, Repr

/-- One OpenAI `chat.completions.create` request as assembled by the
handler. -/
structure AiRequest where
  model : String
  messages : List ChatMsg
deriving DecidableEq, Repr

/-- An outgoing LINE message: plain text, or the chart image (modelled by
its drawable content). -/
inductive OutMessage where
  | text (s : String)
  | image (g : Graph)
deriving DecidableEq, Repr

/-- One successful call of the LINE reply endpoint. -/
structure Dispatch where
  replyToken : String
  messages : List OutMessage
deriving DecidableEq, Repr

/-- The per-user persisted record (src/index.js line 111). -/
structure PatientData where
  history : List (Nat × String)
  weight : List ℚ
  fat : List ℚ
  exercise : List ℚ
  calories : List Nat
deriving DecidableEq, Repr

/-- The default-empty record used when no file exists for the user. -/
def emptyPatientData : PatientData :=
  { history := [], weight := [], fat := [], exercise := [], calories := [] }

/-- Observable side effects, in program order: record file read, record
file write, OpenAI call, LINE content download, LINE reply call. -/
inductive Op where
  | readRec (userId : String)
  | writeRec (userId : String)
  | aiCall
  | download
  | dispatchMsg
deriving DecidableEq, Repr

/-- Process state: the dedup set `processedEvents` (a set of
`event.message?.id` values, where `none` is JavaScript `undefined`), the
record files, and logs of dispatches, AI requests and effect order. -/
structure ServerState where
  processedEvents : List (Option String)
  records : List (String × PatientData)
  dispatched : List Dispatch
  aiRequests : List AiRequest
  trace : List Op
deriving DecidableEq, Repr

/-- The state at process start: empty dedup set, no record files, nothing
dispatched. -/
def initialState : ServerState :=
  { processedEvents := [], records := [], dispatched := [], aiRequests := [], trace := [] }

/-- Record read (src/index.js lines 111-114): the stored file if it
exists, the default-empty record otherwise. -/
def loadRecord (st : ServerState) (userId : String) : PatientData :=
  (st.records.lookup userId).getD emptyPatientData

/-- Record write (src/index.js line 120 / 188): `fs.writeFileSync`
overwrites the user's file. -/
def saveRecord (st : ServerState) (userId : String) (pd : PatientData) : ServerState :=
  { st with records := (userId, pd) :: st.records, trace := st.trace ++ [Op.writeRec userId] }

instance {ε α : Type} [DecidableEq ε] [DecidableEq α] : DecidableEq (Except ε α) := fun x y =>
  match x, y with
  | .ok a, .ok b => if h : a = b then .isTrue (by rw [h]) else .isFalse (by simp [h])
  | .error a, .error b => if h : a = b then .isTrue (by rw [h]) else .isFalse (by simp [h])
  | .ok _, .error _ => .isFalse (by simp)
  | .error _, .ok _ => .isFalse (by simp)

/-- Outcomes of the external calls made while processing one event, plus
`Date.now()`.  `ai = .error ()` covers a thrown/timeout/malformed OpenAI
response (a malformed response throws when `choices[0]` is read);
`download` and `dispatch` are the two axios calls. -/
structure EventOracle where
  now : Nat
  download : Except Unit Unit
  ai : Except Unit String
  dispatch : Except Unit Unit
deriving DecidableEq, Repr

/-- The system prompt of the text path (src/index.js lines 128-135). -/
def systemPersona : String :=
  "\nあなたは整骨院の院長です。56歳で患者さんに最大限寄り添います。\n患者の言葉を引用して「なるほど、○○ですね」と自然に共感してください。\n- 体重、体脂肪率、運動量、摂取カロリーは努力を褒める\n- 過去データを参照して進捗や変化をコメント\n- 不安や落ち込みを和らげ、焦らず一歩ずつ改善する方法を提案\n- 最後は前向きに励ます\n            "

/-- The system prompt of the image path (src/index.js lines 177-180). -/
def caloriePersona : String :=
  "\nあなたは整骨院の院長です。患者さんの食事画像からおおよそのカロリーを推定してください。\n患者にわかりやすく励ましを添えて伝える\n              "

/-- The OpenAI request assembled for a text message
(src/index.js lines 123-139): the fixed persona and the current message
text, nothing else. -/
def textAiRequest (userMessage : String) : AiRequest :=
  { model := "gpt-4o-mini",
    messages := [ { role := "system", content := systemPersona },
                  { role := "user", content := userMessage } ] }

/-- The OpenAI request assembled for an image message
(src/index.js lines 172-184): the image itself is not attached, only a
fixed placeholder text. -/
def imageAiRequest : AiRequest :=
  { model := "gpt-4o-mini",
    messages := [ { role := "system", content := caloriePersona },
                  { role := "user", content := "[患者の食事画像]" } ] }

/-- The reply text of the image path (src/index.js line 195). -/
def calorieReply (cal : Nat) : String :=
  "食事のカロリーは約 " ++ toString cal ++ " kcal です。よく頑張りました！"

/-- Text-message branch (src/index.js lines 117-161): append to
`history`, write the record, call OpenAI, optionally prepend the weight
chart, dispatch.  The second component is `.error ()` when an exception
escapes the branch (AI failure or dispatch failure). -/
def textPath (st : ServerState) (ev : Event) (m : Msg) (pd : PatientData) (o : EventOracle) :
    ServerState × Except Unit Unit :=
  let pd2 := { pd with history := pd.history ++ [(o.now, m.text)] }
  let st2 := saveRecord st ev.userId pd2
  let st3 := { st2 with aiRequests := st2.aiRequests ++ [textAiRequest m.text],
                        trace := st2.trace ++ [Op.aiCall] }
  match o.ai with
  | .error _ => (st3, .error ())
  | .ok aiReply =>
    let base := [OutMessage.text aiReply]
    let msgs := if pd2.weight.length > 0
                then OutMessage.image (createLineGraph pd2.weight "体重推移") :: base
                else base
    let st4 := { st3 with trace := st3.trace ++ [Op.dispatchMsg] }
    match o.dispatch with
    | .error _ => (st4, .error ())
    | .ok _ =>
      ({ st4 with dispatched := st4.dispatched ++ [{ replyToken := ev.replyToken, messages := msgs }] },
       .ok ())

/-- Image-message branch (src/index.js lines 164-200): download the
content, call OpenAI, extract the calorie number, append to `calories`,
write the record, dispatch. -/
def imagePath (st : ServerState) (ev : Event) (pd : PatientData) (o : EventOracle) :
    ServerState × Except Unit Unit :=
  let st2 := { st with trace := st.trace ++ [Op.download] }
  match o.download with
  | .error _ => (st2, .error ())
  | .ok _ =>
    let st3 := { st2 with aiRequests := st2.aiRequests ++ [imageAiRequest],
                          trace := st2.trace ++ [Op.aiCall] }
    match o.ai with
    | .error _ => (st3, .error ())
    | .ok content =>
      let cal := extractCalories content
      let pd2 := { pd with calories := pd.calories ++ [cal] }
      let st4 := saveRecord st3 ev.userId pd2
      let st5 := { st4 with trace := st4.trace ++ [Op.dispatchMsg] }
      match o.dispatch with
      | .error _ => (st5, .error ())
      | .ok _ =>
        ({ st5 with dispatched := st5.dispatched ++
              [{ replyToken := ev.replyToken, messages := [OutMessage.text (calorieReply cal)] }] },
         .ok ())

/-- Processing of one event inside the loop (src/index.js lines 102-201):
dedup check and insertion, record read, then the branch selected by the
event type.  A `message` event without a `message` object throws a
`TypeError` at line 117 (`event.message.type`).  The second component is
`.ok ()` when the loop continues to the next event and `.error ()` when
an exception escapes to the handler's catch. -/
def processEvent (st : ServerState) (ev : Event) (o : EventOracle) :
    ServerState × Except Unit Unit :=
  if st.processedEvents.contains (eventMid ev) then (st, .ok ())
  else
    let st1 := { st with processedEvents := eventMid ev :: st.processedEvents }
    let pd := loadRecord st1 ev.userId
    let st2 := { st1 with trace := st1.trace ++ [Op.readRec ev.userId] }
    if ev.etype = "message" then
      match ev.message with
      | none => (st2, .error ())
      | some m =>
        if m.mtype = "text" then textPath st2 ev m pd o
        else if m.mtype = "image" then imagePath st2 ev pd o
        else (st2, .ok ())
    else (st2, .ok ())

/-- The event loop under the handler's single `try/catch`
(src/index.js lines 102-204): events run in order; the first escaping
exception is caught at line 202, which abandons the loop (the remaining
events are skipped) and returns normally — the process never crashes. -/
def runBatch (st : ServerState) : List (Event × EventOracle) → ServerState
  | [] => st
  | (ev, o) :: rest =>
    match processEvent st ev o with
    | (st2, .ok _) => runBatch st2 rest
    | (st2, .error _) => st2

/-! ## Concrete fixtures used by witnesses and counterexamples -/

/-- Oracle for an event whose external calls all succeed. -/
def exOracleOk : EventOracle :=
  { now := 5, download := .ok (), ai := .ok "AI reply", dispatch := .ok () }

/-- Oracle for an event whose OpenAI call fails. -/
def exOracleAiFail : EventOracle :=
  { now := 5, download := .ok (), ai := .error (), dispatch := .ok () }

/-- A state holding an earlier conversation turn for user `U`. -/
def exStateWithHistory : ServerState :=
  { initialState with
    records := [("U", { emptyPatientData with history := [(1, "prior turn")] })] }

/-- A text-message event with the given id, text, user and reply token. -/
def textEvent (mid : Option String) (txt u rt : String) : Event :=
  { etype := "message",
    message := some { mid := mid, mtype := "text", text := txt },
    userId := u, replyToken := rt }

/-- An image-message event (the `text` field of an image message is
unused by the handler). -/
def imageEvent (mid : Option String) (txt u rt : String) : Event :=
  { etype := "message",
    message := some { mid := mid, mtype := "image", text := txt },
    userId := u, replyToken := rt }

/-! ## Behaviour of one event, symbolically -/

/-- A duplicate event id (already in `processedEvents`) is skipped with
no observable effect (src/index.js line 104). -/
theorem processEvent_dup (st : ServerState) (ev : Event) (o : EventOracle)
    (h : eventMid ev ∈ st.processedEvents) :
    processEvent st ev o = (st, Except.ok ()) := by
  simp [processEvent, h]

/-- Full result of a fresh text event whose OpenAI call and dispatch both
succeed. -/
theorem processEvent_text_ok (st : ServerState) (mid : Option String) (txt u rt r : String)
    (o : EventOracle)
    (hne : mid ∉ st.processedEvents)
    (hai : o.ai = Except.ok r) (hd : o.dispatch = Except.ok ()) :
    processEvent st (textEvent mid txt u rt) o =
      ({ processedEvents := mid :: st.processedEvents,
         records := (u, { loadRecord st u with
                          history := (loadRecord st u).history ++ [(o.now, txt)] }) :: st.records,
         dispatched := st.dispatched ++
           [{ replyToken := rt,
              messages := if (loadRecord st u).weight.length > 0
                          then [OutMessage.image (createLineGraph (loadRecord st u).weight "体重推移"),
                                OutMessage.text r]
                          else [OutMessage.text r] }],
         aiRequests := st.aiRequests ++ [textAiRequest txt],
         trace := st.trace ++ [Op.readRec u, Op.writeRec u, Op.aiCall, Op.dispatchMsg] },
       Except.ok ()) := by
  simp [processEvent, textEvent, eventMid, hne, textPath, saveRecord, loadRecord, hai, hd]

/-- Full result of a fresh text event whose OpenAI call fails: the
exception escapes (second component `.error`), nothing is dispatched. -/
theorem processEvent_text_aifail (st : ServerState) (mid : Option String) (txt u rt : String)
    (o : EventOracle)
    (hne : mid ∉ st.processedEvents)
    (hai : o.ai = Except.error ()) :
    processEvent st (textEvent mid txt u rt) o =
      ({ processedEvents := mid :: st.processedEvents,
         records := (u, { loadRecord st u with
                          history := (loadRecord st u).history ++ [(o.now, txt)] }) :: st.records,
         dispatched := st.dispatched,
         aiRequests := st.aiRequests ++ [textAiRequest txt],
         trace := st.trace ++ [Op.readRec u, Op.writeRec u, Op.aiCall] },
       Except.error ()) := by
  simp [processEvent, textEvent, eventMid, hne, textPath, saveRecord, loadRecord, hai]

/-- Full result of a fresh image event whose download, OpenAI call and
dispatch all succeed. -/
theorem processEvent_image_ok (st : ServerState) (mid : Option String) (txt u rt content : String)
    (o : EventOracle)
    (hne : mid ∉ st.processedEvents)
    (hdl : o.download = Except.ok ())
    (hai : o.ai = Except.ok content) (hd : o.dispatch = Except.ok ()) :
    processEvent st (imageEvent mid txt u rt) o =
      ({ processedEvents := mid :: st.processedEvents,
         records := (u, { loadRecord st u with
                          calories := (loadRecord st u).calories ++ [extractCalories content] }) :: st.records,
         dispatched := st.dispatched ++
           [{ replyToken := rt,
              messages := [OutMessage.text (calorieReply (extractCalories content))] }],
         aiRequests := st.aiRequests ++ [imageAiRequest],
         trace := st.trace ++ [Op.readRec u, Op.download, Op.aiCall, Op.writeRec u, Op.dispatchMsg] },
       Except.ok ()) := by
  simp [processEvent, imageEvent, eventMid, hne, imagePath, saveRecord, loadRecord, hdl, hai, hd]

/-- Full result of a fresh image event whose OpenAI call fails. -/
theorem processEvent_image_aifail (st : ServerState) (mid : Option String) (txt u rt : String)
    (o : EventOracle)
    (hne : mid ∉ st.processedEvents)
    (hdl : o.download = Except.ok ())
    (hai : o.ai = Except.error ()) :
    processEvent st (imageEvent mid txt u rt) o =
      ({ processedEvents := mid :: st.processedEvents,
         records := st.records,
         dispatched := st.dispatched,
         aiRequests := st.aiRequests ++ [imageAiRequest],
         trace := st.trace ++ [Op.readRec u, Op.download, Op.aiCall] },
       Except.error ()) := by
  simp [processEvent, imageEvent, eventMid, hne, imagePath, saveRecord, loadRecord, hdl, hai]

/-- The OpenAI request of a fresh text event is recorded whatever the
oracle outcomes (the request is assembled and sent before any failure
can be observed). -/
theorem processEvent_text_aiRequests (st : ServerState) (mid : Option String) (txt u rt : String)
    (o : EventOracle)
    (hne : mid ∉ st.processedEvents) :
    (processEvent st (textEvent mid txt u rt) o).1.aiRequests =
      st.aiRequests ++ [textAiRequest txt] := by
  rcases o with ⟨now, dl, ai, dsp⟩
  rcases ai with e | r
  · simp [processEvent, textEvent, eventMid, hne, textPath, saveRecord]
  · rcases dsp with e | x <;>
      simp [processEvent, textEvent, eventMid, hne, textPath, saveRecord]

/-- `processedEvents` after an event is either unchanged (duplicate) or
gains exactly the event's id. -/
theorem processEvent_processedEvents (st : ServerState) (ev : Event) (o : EventOracle) :
    (processEvent st ev o).1.processedEvents = st.processedEvents ∨
    (processEvent st ev o).1.processedEvents = eventMid ev :: st.processedEvents := by
  by_cases hc : eventMid ev ∈ st.processedEvents
  · left
    simp [processEvent, hc]
  · right
    rcases ev with ⟨et, msg, uu, rtt⟩
    rcases o with ⟨now, dl, ai, dsp⟩
    rcases msg with _ | m
    · have hc2 : (none : Option String) ∉ st.processedEvents := by simpa [eventMid] using hc
      by_cases het : et = "message" <;>
        simp [processEvent, eventMid, hc2, het]
    · have hc : m.mid ∉ st.processedEvents := by simpa [eventMid] using hc
      by_cases het : et = "message"
      · by_cases hmt : m.mtype = "text"
        · rcases ai with e | r
          · simp [processEvent, eventMid, hc, het, hmt, textPath, saveRecord]
          · rcases dsp with e | x <;>
              simp [processEvent, eventMid, hc, het, hmt, textPath, saveRecord]
        · by_cases hmi : m.mtype = "image"
          · rcases dl with e | x
            · simp [processEvent, eventMid, hc, het, hmt, hmi, imagePath, saveRecord]
            · rcases ai with e | r
              · simp [processEvent, eventMid, hc, het, hmt, hmi, imagePath, saveRecord]
              · rcases dsp with e | x2 <;>
                  simp [processEvent, eventMid, hc, het, hmt, hmi, imagePath, saveRecord]
          · simp [processEvent, eventMid, hc, het, hmt, hmi]
      · simp [processEvent, eventMid, hc, het]

/-- Membership in the dedup set is never lost. -/
theorem processEvent_contains_mono (st : ServerState) (ev : Event) (o : EventOracle)
    (x : Option String)
    (h : x ∈ st.processedEvents) :
    x ∈ (processEvent st ev o).1.processedEvents := by
  rcases processEvent_processedEvents st ev o with hp | hp <;> rw [hp]
  · exact h
  · exact List.mem_cons_of_mem _ h

/-! ## List and extraction lemmas -/

theorem takeWhile_append_all (p : Char → Bool) (l l2 : List Char)
    (h1 : ∀ c ∈ l, p c = true) (h2 : ∀ c, l2.head? = some c → p c = false) :
    List.takeWhile p (l ++ l2) = l := by
  induction l with
  | nil =>
    cases l2 with
    | nil => rfl
    | cons c t => simp [List.takeWhile_cons, h2 c rfl]
  | cons c t ih =>
    have hc := h1 c (List.mem_cons_self c t)
    simp [List.takeWhile_cons, hc,
      ih (fun d hd => h1 d (List.mem_cons_of_mem _ hd))]

/-- A string without digits has no digit run (so the default "0" is
used). -/
theorem firstDigitRun_none (l : List Char) (h : ∀ c ∈ l, c.isDigit = false) :
    firstDigitRun l = none := by
  induction l with
  | nil => rfl
  | cons c t ih =>
    simp [firstDigitRun, h c (List.mem_cons_self c t),
      ih (fun d hd => h d (List.mem_cons_of_mem _ hd))]

/-- The regular-expression match: the first maximal digit run of the
text is found, whatever precedes and follows it. -/
theorem firstDigitRun_append (a d b : List Char)
    (ha : ∀ c ∈ a, c.isDigit = false)
    (hd : d ≠ []) (hall : ∀ c ∈ d, c.isDigit = true)
    (hb : ∀ c, b.head? = some c → c.isDigit = false) :
    firstDigitRun (a ++ (d ++ b)) = some d := by
  induction a with
  | nil =>
    cases d with
    | nil => exact absurd rfl hd
    | cons c t =>
      have hc := hall c (List.mem_cons_self c t)
      simp [firstDigitRun, hc,
        takeWhile_append_all Char.isDigit t b
          (fun x hx => hall x (List.mem_cons_of_mem _ hx)) hb]
  | cons c t ih =>
    simp only [List.cons_append, firstDigitRun, ha c (List.mem_cons_self c t),
      Bool.false_eq_true, if_false]
    exact ih (fun x hx => ha x (List.mem_cons_of_mem _ hx))

theorem extractCalories_no_digits (s : String) (h : ∀ c ∈ s.data, c.isDigit = false) :
    extractCalories s = 0 := by
  simp [extractCalories, firstDigitRun_none s.data h, digitsToNat]

theorem extractCalories_first_run (a d b : List Char)
    (ha : ∀ c ∈ a, c.isDigit = false)
    (hd : d ≠ []) (hall : ∀ c ∈ d, c.isDigit = true)
    (hb : ∀ c, b.head? = some c → c.isDigit = false) :
    extractCalories (String.mk (a ++ (d ++ b))) = digitsToNat d := by
  simp [extractCalories, firstDigitRun_append a d b ha hd hall hb]

/-! ## Chart lemmas -/

theorem foldl_max_seed_le (x : ℚ) (xs : List ℚ) : x ≤ xs.foldl max x := by
  induction xs generalizing x with
  | nil => exact le_refl x
  | cons a t ih =>
    rw [List.foldl_cons]
    exact le_trans (le_max_left x a) (ih (max x a))

theorem mem_le_foldl_max (x v : ℚ) (xs : List ℚ) (h : v ∈ x :: xs) : v ≤ xs.foldl max x := by
  induction xs generalizing x with
  | nil =>
    rw [List.mem_singleton] at h
    exact le_of_eq h
  | cons a t ih =>
    rw [List.foldl_cons]
    rcases List.mem_cons.mp h with h1 | h2
    · subst h1
      exact le_trans (le_max_left v a) (foldl_max_seed_le _ t)
    · rcases List.mem_cons.mp h2 with h3 | h4
      · subst h3
        exact le_trans (le_max_right x v) (foldl_max_seed_le _ t)
      · exact ih (max x a) (List.mem_cons_of_mem _ h4)

/-- Every sample is bounded by `Math.max(...data)`. -/
theorem seriesMax_bound (x v : ℚ) (xs : List ℚ) (h : v ∈ x :: xs) : v ≤ seriesMax x xs :=
  mem_le_foldl_max x v xs h

theorem snd_mem_of_mem_enumFrom {α : Type} (l : List α) (n : Nat) (q : Nat × α)
    (h : q ∈ l.enumFrom n) : q.2 ∈ l := by
  induction l generalizing n with
  | nil => simp [List.enumFrom] at h
  | cons a t ih =>
    rcases List.mem_cons.mp (by simpa [List.enumFrom] using h) with h1 | h2
    · rw [h1]
      exact List.mem_cons_self a t
    · exact List.mem_cons_of_mem _ (ih (n + 1) h2)

/-- Every plotted vertex comes from a sample of the series, with
y-coordinate `graphY v (seriesMax ...)`. -/
theorem graphPoints_mem (x : ℚ) (xs : List ℚ) (p : ℚ × JsNum)
    (hp : p ∈ graphPoints (x :: xs)) :
    ∃ v ∈ x :: xs, p.2 = graphY v (seriesMax x xs) := by
  simp only [graphPoints] at hp
  rcases List.mem_map.mp hp with ⟨q, hq, rfl⟩
  exact ⟨q.2, snd_mem_of_mem_enumFrom _ 0 q hq, rfl⟩

/-- When the series maximum is `0`, the y-coordinate of a sample is
`NaN` (for the samples equal to `0`) or `+Infinity` (for the negative
samples) — never the baseline value `250`. -/
theorem graphY_of_max_zero (v : ℚ) (hv : v ≤ 0) :
    (graphY v 0 = JsNum.nan ∨ graphY v 0 = JsNum.posInf) ∧ graphY v 0 ≠ JsNum.num 250 := by
  by_cases h0 : v = 0
  · subst h0
    simp [graphY]
  · have hlt : ¬ v > 0 := not_lt.mpr hv
    simp [graphY, h0, hlt]

/-! ## Batch lemmas -/

theorem runBatch_nil (st : ServerState) : runBatch st [] = st := rfl

theorem runBatch_cons_ok (st st2 : ServerState) (ev : Event) (o : EventOracle)
    (rest : List (Event × EventOracle))
    (h : processEvent st ev o = (st2, Except.ok ())) :
    runBatch st ((ev, o) :: rest) = runBatch st2 rest := by
  simp [runBatch, h]

theorem runBatch_cons_error (st st2 : ServerState) (ev : Event) (o : EventOracle)
    (rest : List (Event × EventOracle))
    (h : processEvent st ev o = (st2, Except.error ())) :
    runBatch st ((ev, o) :: rest) = st2 := by
  simp [runBatch, h]

/-! ## Claims -/

set_option maxRecDepth 100000

/-- C1 (amended): for every fresh text or image message event whose AI
backend call fails, the failure is NOT caught locally and no fallback
reply exists: the exception escapes per-event processing, nothing is
dispatched for that event, and the handler-level catch merely returns
the state reached so far (so the process does not crash). -/
theorem C1_ai_failure_no_reply (st : ServerState) (mid : Option String)
    (txt u rt : String) (o : EventOracle)
    (hne : mid ∉ st.processedEvents)
    (hai : o.ai = Except.error ()) :
    ((processEvent st (textEvent mid txt u rt) o).2 = Except.error () ∧
     (processEvent st (textEvent mid txt u rt) o).1.dispatched = st.dispatched ∧
     runBatch st [(textEvent mid txt u rt, o)] =
       (processEvent st (textEvent mid txt u rt) o).1) ∧
    (o.download = Except.ok () →
     (processEvent st (imageEvent mid txt u rt) o).2 = Except.error () ∧
     (processEvent st (imageEvent mid txt u rt) o).1.dispatched = st.dispatched ∧
     runBatch st [(imageEvent mid txt u rt, o)] =
       (processEvent st (imageEvent mid txt u rt) o).1) := by
  have ht := processEvent_text_aifail st mid txt u rt o hne hai
  refine ⟨⟨by rw [ht], by rw [ht],
           by rw [ht]; exact runBatch_cons_error st _ (textEvent mid txt u rt) o [] ht⟩,
          fun hdl => ?_⟩
  have hi := processEvent_image_aifail st mid txt u rt o hne hdl hai
  exact ⟨by rw [hi], by rw [hi],
         by rw [hi]; exact runBatch_cons_error st _ (imageEvent mid txt u rt) o [] hi⟩

/-- C1 witness: concrete failing text and image events dispatch
nothing. -/
theorem C1_ai_failure_no_reply_witness :
    (processEvent initialState (textEvent (some "id1") "hello" "U" "rt1") exOracleAiFail).1.dispatched
      = initialState.dispatched ∧
    (processEvent initialState (imageEvent (some "id1") "hello" "U" "rt1") exOracleAiFail).1.dispatched
      = initialState.dispatched := by
  have h := C1_ai_failure_no_reply initialState (some "id1") "hello" "U" "rt1" exOracleAiFail
    (by decide) (by decide)
  exact ⟨h.1.2.1, (h.2 (by decide)).2.1⟩

/-- C1 counterexample: a text event whose AI call fails leads to NO
dispatched reply at all — in particular not to a fixed apologetic
fallback string, which exists nowhere in the handler. -/
theorem C1_counterexample :
    (runBatch initialState [(textEvent (some "id1") "hello" "U" "rt1", exOracleAiFail)]).dispatched
      = [] := by
  decide

/-- C2 (amended): a failure raised while processing one event IS
terminal for its whole batch: the single handler-level catch stops the
loop, so the remaining sibling events are not processed — but the
handler returns normally with the state reached so far, so the process
does not crash. -/
theorem C2_failure_aborts_siblings (st : ServerState) (ev : Event) (o : EventOracle)
    (rest : List (Event × EventOracle))
    (herr : (processEvent st ev o).2 = Except.error ()) :
    runBatch st ((ev, o) :: rest) = (processEvent st ev o).1 := by
  have h2 : processEvent st ev o = ((processEvent st ev o).1, Except.error ()) := by
    rw [← herr]
  exact runBatch_cons_error st _ ev o rest h2

/-- C2 witness: a failing first event followed by a fresh second event. -/
theorem C2_failure_aborts_siblings_witness :
    runBatch initialState
        [(textEvent (some "id1") "hello" "U" "rt1", exOracleAiFail),
         (textEvent (some "id2") "hi" "U" "rt1", exOracleOk)] =
      (processEvent initialState (textEvent (some "id1") "hello" "U" "rt1") exOracleAiFail).1 :=
  C2_failure_aborts_siblings initialState (textEvent (some "id1") "hello" "U" "rt1")
    exOracleAiFail [(textEvent (some "id2") "hi" "U" "rt1", exOracleOk)] (by decide)

/-- C2 counterexample: after the first event's AI failure the sibling
event "id2" is never processed — no reply is dispatched for it and its
id never enters the dedup set. -/
theorem C2_counterexample :
    (runBatch initialState
        [(textEvent (some "id1") "hello" "U" "rt1", exOracleAiFail),
         (textEvent (some "id2") "hi" "U" "rt1", exOracleOk)]).dispatched = [] ∧
    some "id2" ∉ (runBatch initialState
        [(textEvent (some "id1") "hello" "U" "rt1", exOracleAiFail),
         (textEvent (some "id2") "hi" "U" "rt1", exOracleOk)]).processedEvents := by
  decide

/-- C3 (amended): there is no trigger-phrase routing override in the
handler: EVERY fresh text event — booking phrases included — records an
OpenAI request, and when the call succeeds the dispatched reply is the
AI completion text (optionally preceded by the weight chart), not a
fixed templated routing reply. -/
theorem C3_no_trigger_override (st : ServerState) (mid : Option String)
    (txt u rt : String) (o : EventOracle)
    (hne : mid ∉ st.processedEvents) :
    (processEvent st (textEvent mid txt u rt) o).1.aiRequests =
      st.aiRequests ++ [textAiRequest txt] ∧
    (∀ r, o.ai = Except.ok r → o.dispatch = Except.ok () →
      (processEvent st (textEvent mid txt u rt) o).1.dispatched =
        st.dispatched ++
          [{ replyToken := rt,
             messages := if (loadRecord st u).weight.length > 0
                         then [OutMessage.image (createLineGraph (loadRecord st u).weight "体重推移"),
                               OutMessage.text r]
                         else [OutMessage.text r] }]) := by
  refine ⟨processEvent_text_aiRequests st mid txt u rt o hne, fun r hai hd => ?_⟩
  rw [processEvent_text_ok st mid txt u rt r o hne hai hd]

/-- C3 witness: the booking phrase still produces an OpenAI request. -/
theorem C3_no_trigger_override_witness :
    (processEvent initialState
        (textEvent (some "id1") "I want to book an appointment" "U" "rt1") exOracleOk).1.aiRequests =
      initialState.aiRequests ++ [textAiRequest "I want to book an appointment"] := by
  have h := C3_no_trigger_override initialState (some "id1")
    "I want to book an appointment" "U" "rt1" exOracleOk (by decide)
  exact h.1

/-- C3 counterexample: the text "I want to book an appointment" does not
short-circuit: an AI backend call is made and the dispatched reply is
the AI completion, not a fixed routing reply. -/
theorem C3_counterexample :
    (runBatch initialState
        [(textEvent (some "id1") "I want to book an appointment" "U" "rt1", exOracleOk)]).aiRequests
      ≠ [] ∧
    (runBatch initialState
        [(textEvent (some "id1") "I want to book an appointment" "U" "rt1", exOracleOk)]).dispatched
      = [{ replyToken := "rt1", messages := [OutMessage.text "AI reply"] }] := by
  decide

/-- C4 (amended): the OpenAI request assembled for a text event consists
of the fixed persona instruction plus the current message ONLY: no
accumulated conversation context is included, and the appended request
is independent of the stored per-user state. -/
theorem C4_request_lacks_history (st st2 : ServerState) (mid mid2 : Option String)
    (txt u u2 rt rt2 : String) (o o2 : EventOracle)
    (hne : mid ∉ st.processedEvents) (hne2 : mid2 ∉ st2.processedEvents) :
    (processEvent st (textEvent mid txt u rt) o).1.aiRequests.drop st.aiRequests.length =
      [{ model := "gpt-4o-mini",
         messages := [{ role := "system", content := systemPersona },
                      { role := "user", content := txt }] }] ∧
    (processEvent st2 (textEvent mid2 txt u2 rt2) o2).1.aiRequests.drop st2.aiRequests.length =
      (processEvent st (textEvent mid txt u rt) o).1.aiRequests.drop st.aiRequests.length := by
  have h1 := processEvent_text_aiRequests st mid txt u rt o hne
  have h2 := processEvent_text_aiRequests st2 mid2 txt u2 rt2 o2 hne2
  rw [h1, h2, List.drop_left, List.drop_left]
  exact ⟨rfl, rfl⟩

/-- C4 witness: two different stored states yield the same appended
persona-plus-current-message request. -/
theorem C4_request_lacks_history_witness :
    (processEvent exStateWithHistory (textEvent (some "id1") "hello" "U" "rt1")
        exOracleOk).1.aiRequests.drop exStateWithHistory.aiRequests.length =
      [{ model := "gpt-4o-mini",
         messages := [{ role := "system", content := systemPersona },
                      { role := "user", content := "hello" }] }] := by
  have h := C4_request_lacks_history exStateWithHistory initialState (some "id1") (some "id1")
    "hello" "U" "U" "rt1" "rt1" exOracleOk exOracleOk (by decide) (by decide)
  exact h.1

/-- C4 counterexample: with a non-empty stored history for user U, the
assembled request still contains only the persona and the current
message — and equals the request assembled from an empty state. -/
theorem C4_counterexample :
    (runBatch exStateWithHistory
        [(textEvent (some "id1") "hello" "U" "rt1", exOracleOk)]).aiRequests =
      [{ model := "gpt-4o-mini",
         messages := [{ role := "system", content := systemPersona },
                      { role := "user", content := "hello" }] }] ∧
    (runBatch exStateWithHistory
        [(textEvent (some "id1") "hello" "U" "rt1", exOracleOk)]).aiRequests =
      (runBatch initialState
        [(textEvent (some "id1") "hello" "U" "rt1", exOracleOk)]).aiRequests := by
  decide

/-- C5 (amended): the signature digest is computed over the re-serialised
parse of the raw body (`JSON.stringify(req.body)`), not over the exact
bytes received: verification accepts (B, sig) exactly when the HMAC of
the re-serialisation equals sig, and it accepts the honest pair
(B, hmac(B)) when B coincides with its re-serialisation. -/
theorem C5_verify_reserialized (hmacB64 : String → String) (raw canon sig : String)
    (hp : digestInput raw = some canon) :
    verifyWebhookSignature hmacB64 raw sig = some (hmacB64 canon == sig) ∧
    (canon = raw → verifyWebhookSignature hmacB64 raw (hmacB64 raw) = some true) := by
  constructor
  · simp [verifyWebhookSignature, hp]
  · intro hcr
    simp [verifyWebhookSignature, hp, hcr]

/-- C5 witness: a canonical body is accepted with its own digest. -/
theorem C5_verify_reserialized_witness :
    verifyWebhookSignature id "[1]" "y" = some (id "[1]" == "y") ∧
    ("[1]" = "[1]" → verifyWebhookSignature id "[1]" (id "[1]") = some true) :=
  C5_verify_reserialized id "[1]" "[1]" "y" (by decide)

/-- C5 counterexample: for the raw body with a space after the colon the
digest input is the re-serialised reconstruction, which differs from the
exact bytes received — so the claimed universal acceptance of
(B, hmac(B)) fails for this B. -/
theorem C5_counterexample :
    digestInput "\x7b\"events\": []\x7d" = some "\x7b\"events\":[]\x7d" ∧
    "\x7b\"events\":[]\x7d" ≠ "\x7b\"events\": []\x7d" := by
  decide

/-- C6: redelivering the same event id twice within one process lifetime
processes it once: a batch carrying the id twice yields exactly one
dispatch (dispatched list and dispatch trace both grow by one), exactly
one record write, and the record gains exactly the one appended turn;
moreover an id present in `processedEvents` always causes a silent skip
and membership in the dedup set is never lost — so an id, once inserted,
is never processed again in that process lifetime. -/
theorem C6_redelivery_processed_once (st : ServerState) (i txt u rt r : String)
    (o1 o2 : EventOracle)
    (hne : some i ∉ st.processedEvents)
    (hai : o1.ai = Except.ok r) (hd : o1.dispatch = Except.ok ()) :
    (runBatch st [(textEvent (some i) txt u rt, o1),
                  (textEvent (some i) txt u rt, o2)]).dispatched.length
        = st.dispatched.length + 1 ∧
    (runBatch st [(textEvent (some i) txt u rt, o1),
                  (textEvent (some i) txt u rt, o2)]).trace.count Op.dispatchMsg
        = st.trace.count Op.dispatchMsg + 1 ∧
    (runBatch st [(textEvent (some i) txt u rt, o1),
                  (textEvent (some i) txt u rt, o2)]).trace.count (Op.writeRec u)
        = st.trace.count (Op.writeRec u) + 1 ∧
    (loadRecord (runBatch st [(textEvent (some i) txt u rt, o1),
                              (textEvent (some i) txt u rt, o2)]) u).history
        = (loadRecord st u).history ++ [(o1.now, txt)] ∧
    (∀ st3 ev3 o3, eventMid ev3 ∈ st3.processedEvents →
        processEvent st3 ev3 o3 = (st3, Except.ok ())) ∧
    (∀ st3 ev3 o3 x, x ∈ st3.processedEvents →
        x ∈ (processEvent st3 ev3 o3).1.processedEvents) := by
  have h1 := processEvent_text_ok st (some i) txt u rt r o1 hne hai hd
  have hdup : processEvent (processEvent st (textEvent (some i) txt u rt) o1).1
      (textEvent (some i) txt u rt) o2 =
      ((processEvent st (textEvent (some i) txt u rt) o1).1, Except.ok ()) := by
    apply processEvent_dup
    rw [h1]
    simp [textEvent, eventMid]
  have hrun : runBatch st [(textEvent (some i) txt u rt, o1),
                           (textEvent (some i) txt u rt, o2)] =
      (processEvent st (textEvent (some i) txt u rt) o1).1 := by
    rw [runBatch_cons_ok st (processEvent st (textEvent (some i) txt u rt) o1).1
          (textEvent (some i) txt u rt) o1 [(textEvent (some i) txt u rt, o2)] (by rw [h1]),
        runBatch_cons_ok _ _ (textEvent (some i) txt u rt) o2 [] hdup, runBatch_nil]
  refine ⟨?_, ?_, ?_, ?_, fun st3 ev3 o3 h => processEvent_dup st3 ev3 o3 h,
          fun st3 ev3 o3 x h => processEvent_contains_mono st3 ev3 o3 x h⟩ <;>
    rw [hrun, h1] <;>
    simp [loadRecord, List.lookup, List.count_append, List.count_cons]

/-- C6 witness: the same id twice in one batch dispatches exactly once. -/
theorem C6_redelivery_processed_once_witness :
    (runBatch initialState [(textEvent (some "id1") "hello" "U" "rt1", exOracleOk),
                            (textEvent (some "id1") "hello" "U" "rt1", exOracleOk)]).dispatched.length
      = initialState.dispatched.length + 1 := by
  have h := C6_redelivery_processed_once initialState "id1" "hello" "U" "rt1" "AI reply"
    exOracleOk exOracleOk (by decide) (by decide) (by decide)
  exact h.1

/-- C7 (amended): within one successful text event the order of effects
is: record read, then record WRITE, then the AI call, then dispatch —
the write-back precedes the AI call (and the AI context is not built
from the record contents), not read, AI use, write, dispatch. -/
theorem C7_read_write_ai_dispatch (st : ServerState) (mid : Option String)
    (txt u rt r : String) (o : EventOracle)
    (hne : mid ∉ st.processedEvents)
    (hai : o.ai = Except.ok r) (hd : o.dispatch = Except.ok ()) :
    (processEvent st (textEvent mid txt u rt) o).1.trace =
      st.trace ++ [Op.readRec u, Op.writeRec u, Op.aiCall, Op.dispatchMsg] := by
  rw [processEvent_text_ok st mid txt u rt r o hne hai hd]

/-- C7 witness: the concrete trace of a successful text event. -/
theorem C7_read_write_ai_dispatch_witness :
    (processEvent initialState (textEvent (some "id1") "hello" "U" "rt1") exOracleOk).1.trace =
      initialState.trace ++ [Op.readRec "U", Op.writeRec "U", Op.aiCall, Op.dispatchMsg] :=
  C7_read_write_ai_dispatch initialState (some "id1") "hello" "U" "rt1" "AI reply" exOracleOk
    (by decide) (by decide) (by decide)

/-- C7 counterexample: in the concrete trace the record write (index 1)
strictly precedes the AI call (index 2), refuting the claimed order
"AI-context use happens-before write". -/
theorem C7_counterexample :
    (runBatch initialState [(textEvent (some "id1") "hello" "U" "rt1", exOracleOk)]).trace =
      [Op.readRec "U", Op.writeRec "U", Op.aiCall, Op.dispatchMsg] ∧
    List.indexOf (Op.writeRec "U")
        (runBatch initialState [(textEvent (some "id1") "hello" "U" "rt1", exOracleOk)]).trace <
      List.indexOf Op.aiCall
        (runBatch initialState [(textEvent (some "id1") "hello" "U" "rt1", exOracleOk)]).trace := by
  decide

/-- C8: the calorie estimate appended to `calories` for an image event is
`extractCalories` of the AI response text — the first maximal digit run:
"approximately 650 kcal, well done" yields 650, a digitless response
yields 0 (a returned default, not an exception), and for any text
decomposed as non-digits, a digit run, then a non-digit remainder, the
extracted value is exactly that first run. -/
theorem C8_calorie_estimate (st : ServerState) (mid : Option String)
    (txt u rt content : String) (o : EventOracle)
    (hne : mid ∉ st.processedEvents)
    (hdl : o.download = Except.ok ())
    (hai : o.ai = Except.ok content) (hd : o.dispatch = Except.ok ()) :
    (loadRecord (processEvent st (imageEvent mid txt u rt) o).1 u).calories =
      (loadRecord st u).calories ++ [extractCalories content] ∧
    extractCalories "approximately 650 kcal, well done" = 650 ∧
    (∀ s : String, (∀ c ∈ s.data, c.isDigit = false) → extractCalories s = 0) ∧
    (∀ a d b : List Char, (∀ c ∈ a, c.isDigit = false) → d ≠ [] →
      (∀ c ∈ d, c.isDigit = true) → (∀ c, b.head? = some c → c.isDigit = false) →
      extractCalories (String.mk (a ++ (d ++ b))) = digitsToNat d) := by
  refine ⟨?_, by decide, extractCalories_no_digits, extractCalories_first_run⟩
  rw [processEvent_image_ok st mid txt u rt content o hne hdl hai hd]
  simp [loadRecord, List.lookup]

/-- C8 witness: the concrete 650-kcal response is appended as 650. -/
theorem C8_calorie_estimate_witness :
    (loadRecord (processEvent initialState (imageEvent (some "id2") "" "U" "rt2")
        { now := 5, download := Except.ok (),
          ai := Except.ok "approximately 650 kcal, well done",
          dispatch := Except.ok () }).1 "U").calories =
      (loadRecord initialState "U").calories ++
        [extractCalories "approximately 650 kcal, well done"] ∧
    extractCalories "approximately 650 kcal, well done" = 650 := by
  have h := C8_calorie_estimate initialState (some "id2") "" "U" "rt2"
    "approximately 650 kcal, well done"
    { now := 5, download := Except.ok (),
      ai := Except.ok "approximately 650 kcal, well done", dispatch := Except.ok () }
    (by decide) (by decide) (by decide) (by decide)
  exact ⟨h.1, h.2.1⟩

/-- C9 (amended): for a non-empty series whose maximum is 0 the renderer
performs the division anyway (there is no special case): every plotted
point has y-coordinate NaN or +Infinity under JavaScript arithmetic —
never the baseline 250 — while the renderer remains total, returning an
image with one vertex per sample and the given label. -/
theorem C9_max_zero_no_baseline (x : ℚ) (xs : List ℚ) (lbl : String)
    (hmx : seriesMax x xs = 0) :
    (createLineGraph (x :: xs) lbl).label = lbl ∧
    (createLineGraph (x :: xs) lbl).points.length = (x :: xs).length ∧
    (∀ p ∈ (createLineGraph (x :: xs) lbl).points,
      (p.2 = JsNum.nan ∨ p.2 = JsNum.posInf) ∧ p.2 ≠ JsNum.num 250) := by
  refine ⟨rfl, ?_, ?_⟩
  · simp [createLineGraph, graphPoints]
  · intro p hp
    have hp2 : p ∈ graphPoints (x :: xs) := hp
    rcases graphPoints_mem x xs p hp2 with ⟨v, hv, hpy⟩
    have hvle : v ≤ 0 := hmx ▸ seriesMax_bound x v xs hv
    rw [hpy, hmx]
    exact graphY_of_max_zero v hvle

/-- C9 witness: the one-point all-zero series renders one vertex with
the requested label. -/
theorem C9_max_zero_no_baseline_witness :
    (createLineGraph [(0 : ℚ)] "体重推移").label = "体重推移" ∧
    (createLineGraph [(0 : ℚ)] "体重推移").points.length = [(0 : ℚ)].length := by
  have h := C9_max_zero_no_baseline 0 [] "体重推移" rfl
  exact ⟨h.1, h.2.1⟩

/-- C9 counterexample: for series [0] (maximum 0) the single plotted
point has y-coordinate NaN — JavaScript 0/0 — not the baseline 250: the
max==0 case is not special-cased to the baseline. -/
theorem C9_counterexample :
    (createLineGraph [0] "w").points = [(50, JsNum.nan)] ∧
    JsNum.nan ≠ JsNum.num 250 := by
  constructor
  · simp [createLineGraph, graphPoints, seriesMax, graphStepX, graphY]
  · decide

/-- C10: an event without a message id does not crash the dedup check:
the first id-less event in the process lifetime passes it (here a fresh
text event completes and dispatches a reply), the undefined id (`none`)
is recorded as seen, and afterwards EVERY id-less event is skipped with
no effect — id-less events are neither uniformly processed nor
uniformly skipped. -/
theorem C10_idless_dedup (st : ServerState) (txt u rt r : String) (o : EventOracle)
    (hne : (none : Option String) ∉ st.processedEvents)
    (hai : o.ai = Except.ok r) (hd : o.dispatch = Except.ok ()) :
    (processEvent st (textEvent none txt u rt) o).2 = Except.ok () ∧
    (processEvent st (textEvent none txt u rt) o).1.dispatched.length =
      st.dispatched.length + 1 ∧
    (none : Option String) ∈ (processEvent st (textEvent none txt u rt) o).1.processedEvents ∧
    (∀ st2 ev2 o2, eventMid ev2 = none →
      (none : Option String) ∈ st2.processedEvents →
      processEvent st2 ev2 o2 = (st2, Except.ok ())) := by
  have h1 := processEvent_text_ok st none txt u rt r o hne hai hd
  refine ⟨by rw [h1], by rw [h1]; simp, by rw [h1]; exact List.mem_cons_self _ _, ?_⟩
  intro st2 ev2 o2 hm hmem
  exact processEvent_dup st2 ev2 o2 (by rw [hm]; exact hmem)

/-- C10 witness: a concrete id-less text event is processed once. -/
theorem C10_idless_dedup_witness :
    (processEvent initialState (textEvent none "hello" "U" "rt1") exOracleOk).1.dispatched.length =
      initialState.dispatched.length + 1 := by
  have h := C10_idless_dedup initialState "hello" "U" "rt1" "AI reply" exOracleOk
    (by decide) (by decide) (by decide)
  exact h.2.1
